import Mathlib

/-!
Verification of the nadi-cli command-line driver (src/main.rs).

The crate is a thin CLI over the external nadi_core scripting pipeline
(tokenizer, parser, function registry, task execution context).  We embed
the CLI's control flow shallowly: the external core operations are
abstract parameters (records of functions over abstract Token / Task /
Network / Context types), and every observable action of the CLI
(printing to stdout or stderr, reading the network file, creating a
TaskContext, executing a statement) is recorded in an explicit event
trace.  `execute_tasks`, `show_tasks` and `main` below mirror the Rust
functions of the same names statement by statement.
-/

namespace NadiCli

/-- The `FunctionType` enum of main.rs (clap ValueEnum for `--completion`). -/
inductive FunctionType where
  | Node
  | Network
deriving DecidableEq, Repr

/-- The `CliArgs` struct of main.rs.  Paths are modelled as strings.  The Rust
field `show` is called `show_flag` here because `show` is a Lean keyword. -/
structure CliArgs where
  generate_doc : Option String
  list_functions : Bool
  completion : Option FunctionType
  fnhelp : Option String
  fncode : Option String
  print_tasks : Bool
  network : Option String
  task : Option String
  tasks : Option String
  show_flag : Bool
  stdin : Bool
deriving Repr

/-- Observable actions of the CLI, recorded in order.  `stdoutLine` is one
`println!`, `stderrLine` one `eprintln!`, `loadNetwork p` the read of the
`--network` file `p` by `Network::from_file`, `newContext n` a call of
`TaskContext::new(n)`, `execStmt fc` a call of `TaskContext::execute(fc)`,
and `genDoc d` a call of `plugins_doc(d)`. -/
inductive Event (S N : Type) where
  | stdoutLine : String → Event S N
  | stderrLine : String → Event S N
  | loadNetwork : String → Event S N
  | newContext : Option N → Event S N
  | execStmt : S → Event S N
  | genDoc : String → Event S N
deriving DecidableEq, Repr

/-- Modelled from the spec: the tokenizer and parser of the nadi_core
pipeline (absent from src/, which holds only the CLI) at their interface
boundary — `tokenize(text) -> Result<Tokens, LexError>` and
`parse(tokens) -> Result<Statements, ParseError>` of spec section 6, plus
the `user_msg` renderings of their errors, the Display rendering of a
lexer error used by the `?` conversion into anyhow, and the colored
renderings of tokens and tasks.  All abstract: the CLI treats them as
opaque. -/
structure ParseCore (T S L P : Type) where
  get_tokens : String → Except L (List T)
  parse : List T → Except P (List S)
  lex_display : L → String
  lex_user_msg : L → Option String → String
  parse_user_msg : P → Option String → String
  colored_print : T → String
  to_colored_string : S → String

/-- Modelled from the spec: the execution half of the nadi_core pipeline
(absent from src/) at its interface boundary — the network-file loader
(`Network::from_file`, which may fail with a load error per spec section
6), `Context::new(network: Option<Network>)` and
`Context::execute(statement) -> Result<Option<Output>, Diagnostic>`.
`execute` threads the mutable context (`&mut self` in Rust) explicitly. -/
structure ExecCore (S N K : Type) where
  from_file : String → Except String N
  new : Option N → K
  execute : K → S → K × Except String (Option String)

/-- Modelled from the spec: the function registry of nadi_core
(`NadiFunctions`, absent from src/) at its interface boundary — per spec
section 4.3, `help(name) -> Option<String>` and
`code(name) -> Option<String>` return nothing (not an error) for an
unknown name; `plugins_doc` writes docs to a directory; `list_functions`,
`node_functions` and `network_functions` are the lines the respective
listing branches print. -/
structure NadiFunctions where
  help : String → Option String
  code : String → Option String
  plugins_doc : String → Except String Unit
  list_functions : List String
  node_functions : List String
  network_functions : List String

/-- The ambient process environment: `std::fs::read_to_string` on paths and
the contents of stdin. -/
structure Env where
  read_file : String → Except String String
  stdin : Except String String

/-- The result of `fn main` : either `Ok(())`, an anyhow error carrying a
message, or a panic.  The two panic sites of main.rs are distinguished:
`panicArgsUnwrap` is `args.tasks.unwrap()` on the `--show` branch and
`panicFsRead` is `read_to_string(filename).unwrap()` inside `show_tasks`. -/
inductive RunError where
  | msg : String → RunError
  | panicArgsUnwrap : RunError
  | panicFsRead : String → RunError
deriving DecidableEq, Repr

section Model

variable {T S N K L P : Type}

/-- The `for fc in tasks { match tasks_ctx.execute(fc) ... }` loop of
`execute_tasks`: execute each statement in order against the threaded
context, print `Some` outputs, stop at the first `Err` and return it. -/
def execLoop (execute : K → S → K × Except String (Option String)) :
    K → List S → List (Event S N) × Except String Unit
  | _, [] => ([], Except.ok ())
  | ctx, fc :: rest =>
    match execute ctx fc with
    | (ctx', Except.ok (some p)) =>
      let r := execLoop execute ctx' rest
      (Event.execStmt fc :: Event.stdoutLine p :: r.1, r.2)
    | (ctx', Except.ok none) =>
      let r := execLoop execute ctx' rest
      (Event.execStmt fc :: r.1, r.2)
    | (_, Except.error p) => ([Event.execStmt fc], Except.error p)

/-- Running a prefix of statements that all succeed: returns the context
reached after the prefix together with the events it produced, or `none`
if some statement of the prefix fails. -/
def runPrefix (execute : K → S → K × Except String (Option String)) :
    K → List S → Option (K × List (Event S N))
  | ctx, [] => some (ctx, [])
  | ctx, fc :: rest =>
    match execute ctx fc with
    | (ctx', Except.ok (some p)) =>
      (runPrefix execute ctx' rest).map
        (fun r => (r.1, Event.execStmt fc :: Event.stdoutLine p :: r.2))
    | (ctx', Except.ok none) =>
      (runPrefix execute ctx' rest).map
        (fun r => (r.1, Event.execStmt fc :: r.2))
    | (_, Except.error _) => none

/-- The `let net = if let Some(ref net) = args.network { Some(Network::from_file(net)?) }
else { None }` step of `execute_tasks`: optionally load the network file,
recording the read. -/
def loadNet (ec : ExecCore S N K) (args : CliArgs) :
    List (Event S N) × Except String (Option N) :=
  match args.network with
  | none => ([], Except.ok none)
  | some p =>
    match ec.from_file p with
    | Except.ok n => ([Event.loadNetwork p], Except.ok (some n))
    | Except.error e => ([Event.loadNetwork p], Except.error e)

/-- `fn execute_tasks(functions, txt, args)` of main.rs: tokenize (a lexer
error propagates through `?`), parse (a parse error returns
`user_msg(None)` as the anyhow message), optionally print the parsed
tasks, optionally load the network, announce the run on stderr, create
one `TaskContext`, and run the statement loop.  The `functions` argument
is accepted and unused, exactly as in the source. -/
def execute_tasks (pc : ParseCore T S L P) (ec : ExecCore S N K)
    (functions : NadiFunctions) (txt : String) (args : CliArgs) :
    List (Event S N) × Except String Unit :=
  match pc.get_tokens txt with
  | Except.error e => ([], Except.error (pc.lex_display e))
  | Except.ok tokens =>
    match pc.parse tokens with
    | Except.error e => ([], Except.error (pc.parse_user_msg e none))
    | Except.ok tasks =>
      let pEvs : List (Event S N) :=
        if args.print_tasks then
          tasks.map (fun fc => Event.stdoutLine (pc.to_colored_string fc))
        else []
      let ln := loadNet ec args
      match ln.2 with
      | Except.error e => (pEvs ++ ln.1, Except.error e)
      | Except.ok net =>
        let r := execLoop ec.execute (ec.new net) tasks
        (pEvs ++ ln.1 ++
          Event.stderrLine ("** Running " ++ toString tasks.length ++ " Script **") ::
          Event.newContext net :: r.1, r.2)

/-- `fn show_tasks(filename)` of main.rs: read the file (`.unwrap()`, so a
read failure is a panic), tokenize and print the tokens, then parse and
print the tasks; tokenizer or parser errors are printed as `user_msg(Some
filename)` on stdout and the function still returns normally. -/
def show_tasks (env : Env) (pc : ParseCore T S L P) (filename : String) :
    List (Event S N) × Except RunError Unit :=
  match env.read_file filename with
  | Except.error e => ([], Except.error (RunError.panicFsRead e))
  | Except.ok txt =>
    match pc.get_tokens txt with
    | Except.error e =>
      ([Event.stdoutLine (pc.lex_user_msg e (some filename))], Except.ok ())
    | Except.ok tokens =>
      let tokEvs : List (Event S N) :=
        Event.stdoutLine "\n----File Tokens----" ::
          tokens.map (fun t => Event.stdoutLine (pc.colored_print t))
      match pc.parse tokens with
      | Except.error e =>
        (tokEvs ++ [Event.stdoutLine (pc.parse_user_msg e (some filename))], Except.ok ())
      | Except.ok tasks =>
        (tokEvs ++ Event.stdoutLine "\n----Parsed Tasks----" ::
          tasks.map (fun t => Event.stdoutLine (pc.to_colored_string t)), Except.ok ())

/-- Lift the anyhow result of `execute_tasks` into main's result type
(the `?` at each call site of `execute_tasks`). -/
def liftMsg : List (Event S N) × Except String Unit →
    List (Event S N) × Except RunError Unit
  | (evs, Except.ok u) => (evs, Except.ok u)
  | (evs, Except.error e) => (evs, Except.error (RunError.msg e))

/-- Sequencing of two fallible steps of main: the second runs only when
the first succeeded (the early return of `?`). -/
def seqRun (a b : List (Event S N) × Except RunError Unit) :
    List (Event S N) × Except RunError Unit :=
  match a with
  | (evs, Except.ok _) => (evs ++ b.1, b.2)
  | (evs, Except.error e) => (evs, Except.error e)

/-- The `if let Some(ref tasks) = args.tasks` block of main: read the
tasks file (a read failure propagates through `?` as an anyhow error) and
run it. -/
def sourceTasksFile (env : Env) (pc : ParseCore T S L P)
    (ec : ExecCore S N K) (functions : NadiFunctions) (args : CliArgs) :
    List (Event S N) × Except RunError Unit :=
  match args.tasks with
  | none => ([], Except.ok ())
  | some p =>
    match env.read_file p with
    | Except.error e => ([], Except.error (RunError.msg e))
    | Except.ok txt => liftMsg (execute_tasks pc ec functions txt args)

/-- The `if let Some(ref txt) = args.task` block of main: run the inline
`--task` string. -/
def sourceTaskStr (pc : ParseCore T S L P) (ec : ExecCore S N K)
    (functions : NadiFunctions) (args : CliArgs) :
    List (Event S N) × Except RunError Unit :=
  match args.task with
  | none => ([], Except.ok ())
  | some txt => liftMsg (execute_tasks pc ec functions txt args)

/-- The `if args.stdin` block of main: read all of stdin and run it. -/
def sourceStdin (env : Env) (pc : ParseCore T S L P)
    (ec : ExecCore S N K) (functions : NadiFunctions) (args : CliArgs) :
    List (Event S N) × Except RunError Unit :=
  if args.stdin then
    match env.stdin with
    | Except.error e => ([], Except.error (RunError.msg e))
    | Except.ok txt => liftMsg (execute_tasks pc ec functions txt args)
  else ([], Except.ok ())

/-- The final `else` block of `fn main`: run the tasks file (if given),
then the `--task` string (if given), then stdin (if `--stdin`), each
through its own `execute_tasks` call; an error in one source stops the
later sources (`?` after each call). -/
def runSources (env : Env) (pc : ParseCore T S L P) (ec : ExecCore S N K)
    (functions : NadiFunctions) (args : CliArgs) :
    List (Event S N) × Except RunError Unit :=
  seqRun (sourceTasksFile env pc ec functions args)
    (seqRun (sourceTaskStr pc ec functions args)
      (sourceStdin env pc ec functions args))

/-- `fn main` of main.rs: the if / else-if dispatch over the CLI flags, in
source order: `--show` (with `args.tasks.unwrap()`), `--generate-doc`,
`--fnhelp`, `--fncode`, `--list-functions`, `--completion`, and finally
the task-running block. -/
def main (env : Env) (pc : ParseCore T S L P) (ec : ExecCore S N K)
    (functions : NadiFunctions) (args : CliArgs) :
    List (Event S N) × Except RunError Unit :=
  if args.show_flag then
    match args.tasks with
    | some t => show_tasks env pc t
    | none => ([], Except.error RunError.panicArgsUnwrap)
  else
    match args.generate_doc with
    | some dir =>
      (match functions.plugins_doc dir with
       | Except.ok _ => ([Event.genDoc dir], Except.ok ())
       | Except.error e => ([Event.genDoc dir], Except.error (RunError.msg e)))
    | none =>
      match args.fnhelp with
      | some func => ([Event.stdoutLine ((functions.help func).getD "")], Except.ok ())
      | none =>
        match args.fncode with
        | some func => ([Event.stdoutLine ((functions.code func).getD "")], Except.ok ())
        | none =>
          if args.list_functions then
            (functions.list_functions.map Event.stdoutLine, Except.ok ())
          else
            match args.completion with
            | some FunctionType.Node =>
              (functions.node_functions.map Event.stdoutLine, Except.ok ())
            | some FunctionType.Network =>
              (functions.network_functions.map Event.stdoutLine, Except.ok ())
            | none => runSources env pc ec functions args

/-- The `requires = "tasks"` clap attribute on `show`: whenever the parsed
arguments have the show flag set, the tasks path is present. -/
def ClapValid (args : CliArgs) : Prop :=
  args.show_flag = true → args.tasks.isSome = true

/-- Recognizer for `TaskContext::new` events, used to count how many
contexts a run creates. -/
def isNewContext : Event S N → Bool
  | Event.newContext _ => true
  | _ => false

end Model

/-! ### Small concrete instances of the external core

Used to evaluate the model on closed inputs.  Tokens and tasks are
natural numbers; the script text of length n tokenizes to `List.range n`
(unless it is the string "err"); a token list of length 5 fails to parse;
statement `1` fails at execution with diagnostic "boom", statement `0`
outputs "out0", all others succeed silently while bumping the context. -/

def wPC : ParseCore Nat Nat String String where
  get_tokens txt :=
    if txt = "err" then Except.error "lexfail" else Except.ok (List.range txt.length)
  parse toks := if toks.length = 5 then Except.error "parsefail" else Except.ok toks
  lex_display e := e
  lex_user_msg e f := e ++ "/" ++ f.getD "none"
  parse_user_msg e f := e ++ "/" ++ f.getD "none"
  colored_print t := "tok" ++ toString t
  to_colored_string t := "task" ++ toString t

def wEC : ExecCore Nat Nat Nat where
  from_file p := if p = "good.net" then Except.ok 7 else Except.error "badnet"
  new n := n.getD 0
  execute ctx t :=
    if t = 1 then (ctx, Except.error "boom")
    else (ctx + 1, Except.ok (if t = 0 then some "out0" else none))

def wFns : NadiFunctions where
  help n := if n = "known" then some "helptext" else none
  code n := if n = "known" then some "codetext" else none
  plugins_doc _ := Except.ok ()
  list_functions := ["fn1"]
  node_functions := ["nodefn"]
  network_functions := ["netfn"]

def wEnv : Env where
  read_file p := if p = "f.txt" then Except.ok "abc" else Except.error "ioerr"
  stdin := Except.ok "abc"

/-- Arguments with every flag off: the plain run branch with no sources. -/
def wArgs : CliArgs where
  generate_doc := none
  list_functions := false
  completion := none
  fnhelp := none
  fncode := none
  print_tasks := false
  network := none
  task := none
  tasks := none
  show_flag := false
  stdin := false

def wArgsPT : CliArgs := { wArgs with print_tasks := true }

def cArgsBadNet : CliArgs := { wArgs with network := some "bad.net" }

def cArgsHelp : CliArgs := { wArgs with fnhelp := some "unknownfn" }

def cArgsCode : CliArgs := { wArgs with fncode := some "unknownfn" }

def cArgsMulti : CliArgs :=
  { wArgs with tasks := some "f.txt", task := some "ab", stdin := true,
               network := some "good.net" }

def cArgsShow : CliArgs :=
  { wArgs with show_flag := true, tasks := some "f.txt", task := some "ab",
               network := some "good.net", stdin := true }

section Lemmas

variable {T S N K L P : Type}

/-! ### Helper lemmas about the execution loop and traces -/

/-- Decomposition of the statement loop: if a prefix of the statements all
succeed, the loop over `pre ++ rest` produces the prefix's events and then
behaves exactly as the loop over `rest` started from the context the
prefix reached — the context is threaded through, never reset. -/
theorem runPrefix_execLoop (execute : K → S → K × Except String (Option String))
    (ctx : K) (pre : List S) (rest : List S) (ctx1 : K)
    (evs : List (Event S N))
    (h : runPrefix execute ctx pre = some (ctx1, evs)) :
    execLoop execute ctx (pre ++ rest) =
      (evs ++ (execLoop (N := N) execute ctx1 rest).1,
        (execLoop (N := N) execute ctx1 rest).2) := by
  induction pre generalizing ctx evs with
  | nil =>
    simp only [runPrefix, Option.some.injEq, Prod.mk.injEq] at h
    obtain ⟨h1, h2⟩ := h
    subst h1; subst h2
    simp only [List.nil_append]
  | cons fc pre ih =>
    rcases hx : execute ctx fc with ⟨ctx', r⟩
    rw [runPrefix, hx] at h
    match r with
    | Except.ok (some p) =>
      simp only [Option.map_eq_some', Prod.mk.injEq] at h
      obtain ⟨⟨c, evs0⟩, hr, hc, he⟩ := h
      subst hc; subst he
      rw [List.cons_append, execLoop, hx]
      dsimp only
      simp [ih ctx' evs0 hr]
    | Except.ok none =>
      simp only [Option.map_eq_some', Prod.mk.injEq] at h
      obtain ⟨⟨c, evs0⟩, hr, hc, he⟩ := h
      subst hc; subst he
      rw [List.cons_append, execLoop, hx]
      dsimp only
      simp [ih ctx' evs0 hr]
    | Except.error e =>
      simp at h

/-- Every event emitted by the statement loop is a statement execution or a
stdout line: the loop never loads a network or creates a context. -/
theorem execLoop_events (execute : K → S → K × Except String (Option String))
    (ctx : K) (ts : List S) :
    ∀ ev ∈ (execLoop (N := N) execute ctx ts).1,
      (∃ fc, ev = Event.execStmt fc) ∨ (∃ s, ev = Event.stdoutLine s) := by
  induction ts generalizing ctx with
  | nil =>
    intro ev hev
    simp [execLoop] at hev
  | cons fc rest ih =>
    intro ev hev
    rcases hx : execute ctx fc with ⟨ctx', r⟩
    rw [execLoop, hx] at hev
    match r with
    | Except.ok (some p) =>
      simp only [List.mem_cons] at hev
      rcases hev with h | h | h
      · exact Or.inl ⟨fc, h⟩
      · exact Or.inr ⟨p, h⟩
      · exact ih ctx' ev h
    | Except.ok none =>
      simp only [List.mem_cons] at hev
      rcases hev with h | h
      · exact Or.inl ⟨fc, h⟩
      · exact ih ctx' ev h
    | Except.error e =>
      simp only [List.mem_cons, List.not_mem_nil, or_false] at hev
      exact Or.inl ⟨fc, hev⟩

/-- Every event emitted by `loadNet` is a network-file read. -/
theorem loadNet_events (ec : ExecCore S N K) (args : CliArgs) :
    ∀ ev ∈ (loadNet ec args).1, ∃ p, ev = Event.loadNetwork p := by
  intro ev hev
  match hn : args.network with
  | none => simp [loadNet, hn] at hev
  | some p =>
    match hf : ec.from_file p with
    | Except.ok n =>
      simp [loadNet, hn, hf] at hev
      exact ⟨p, hev⟩
    | Except.error e =>
      simp [loadNet, hn, hf] at hev
      exact ⟨p, hev⟩

/-- Membership in a list of the shape `l.map (fun t => stdoutLine (f t))`
yields a stdout line. -/
theorem mem_map_stdout {α : Type} (f : α → String) (l : List α) (ev : Event S N)
    (h : ev ∈ l.map (fun t => Event.stdoutLine (f t))) :
    ∃ s, ev = Event.stdoutLine s := by
  rcases List.mem_map.mp h with ⟨t, _, h2⟩
  exact ⟨f t, h2.symm⟩

/-- The `--print-tasks` block of `execute_tasks` emits only stdout lines. -/
theorem mem_print_tasks_stdout (pc : ParseCore T S L P) (args : CliArgs)
    (tasks : List S) (ev : Event S N)
    (h : ev ∈ (if args.print_tasks = true then
        tasks.map (fun fc => Event.stdoutLine (pc.to_colored_string fc))
      else [])) : ∃ s, ev = Event.stdoutLine s := by
  cases hpt : args.print_tasks with
  | false => simp [hpt] at h
  | true =>
    simp only [hpt, if_true] at h
    exact mem_map_stdout _ _ _ h

/-- Every `TaskContext::new` event of a run of `execute_tasks` carries
exactly the network value loaded (or not loaded) from the `--network`
argument by that same run. -/
theorem execute_tasks_newContext (pc : ParseCore T S L P)
    (ec : ExecCore S N K) (functions : NadiFunctions) (txt : String)
    (args : CliArgs) :
    ∀ ev ∈ (execute_tasks pc ec functions txt args).1, ∀ v,
      ev = Event.newContext v → (loadNet ec args).2 = Except.ok v := by
  intro ev hev v hv
  subst hv
  match htok : pc.get_tokens txt with
  | Except.error e => simp [execute_tasks, htok] at hev
  | Except.ok tokens =>
    match hp : pc.parse tokens with
    | Except.error e => simp [execute_tasks, htok, hp] at hev
    | Except.ok tasks =>
      match hl : (loadNet ec args).2 with
      | Except.error e =>
        simp only [execute_tasks, htok, hp, hl, List.mem_append] at hev
        rcases hev with hev | hev
        · rcases mem_print_tasks_stdout pc args tasks _ hev with ⟨s, h2⟩
          simp at h2
        · rcases loadNet_events ec args _ hev with ⟨p, hp2⟩
          simp at hp2
      | Except.ok net =>
        simp only [execute_tasks, htok, hp, hl, List.append_assoc, List.mem_append,
          List.mem_cons] at hev
        rcases hev with hev | hev | hev | hev | hev
        · rcases mem_print_tasks_stdout pc args tasks _ hev with ⟨s, h2⟩
          simp at h2
        · rcases loadNet_events ec args _ hev with ⟨p, hp2⟩
          simp at hp2
        · simp at hev
        · injection hev with h
          rw [h]
        · rcases execLoop_events ec.execute (ec.new net) tasks _ hev with ⟨fc, h2⟩ | ⟨s, h2⟩ <;>
            simp at h2

/-- Every event `show_tasks` emits is a stdout line: the show path prints
tokens, statements, or an error message, and nothing else. -/
theorem show_tasks_events (env : Env) (pc : ParseCore T S L P)
    (filename : String) :
    ∀ ev ∈ (show_tasks (N := N) env pc filename).1, ∃ s, ev = Event.stdoutLine s := by
  intro ev hev
  match hr : env.read_file filename with
  | Except.error e => simp [show_tasks, hr] at hev
  | Except.ok txt =>
    match htok : pc.get_tokens txt with
    | Except.error e =>
      simp [show_tasks, hr, htok] at hev
      exact ⟨_, hev⟩
    | Except.ok tokens =>
      match hp : pc.parse tokens with
      | Except.error e =>
        simp only [show_tasks, hr, htok, hp, List.mem_append, List.mem_cons] at hev
        rcases hev with (hev | hev) | hev | hev
        · exact ⟨_, hev⟩
        · exact mem_map_stdout _ _ _ hev
        · exact ⟨_, hev⟩
        · exact absurd hev (List.not_mem_nil ev)
      | Except.ok tasks =>
        simp only [show_tasks, hr, htok, hp, List.mem_append, List.mem_cons] at hev
        rcases hev with (hev | hev) | hev | hev
        · exact ⟨_, hev⟩
        · exact mem_map_stdout _ _ _ hev
        · exact ⟨_, hev⟩
        · exact mem_map_stdout _ _ _ hev

/-- `show_tasks` can fail only by the file-read panic, never by the
`args.tasks.unwrap()` panic. -/
theorem show_tasks_no_args_panic (env : Env) (pc : ParseCore T S L P)
    (filename : String) :
    (show_tasks (N := N) env pc filename).2 ≠
      Except.error RunError.panicArgsUnwrap := by
  match hr : env.read_file filename with
  | Except.error e => simp [show_tasks, hr]
  | Except.ok txt =>
    match htok : pc.get_tokens txt with
    | Except.error e => simp [show_tasks, hr, htok]
    | Except.ok tokens =>
      match hp : pc.parse tokens with
      | Except.error e => simp [show_tasks, hr, htok, hp]
      | Except.ok tasks => simp [show_tasks, hr, htok, hp]

/-- `liftMsg` keeps the trace unchanged. -/
theorem liftMsg_fst (x : List (Event S N) × Except String Unit) :
    (liftMsg x).1 = x.1 := by
  rcases x with ⟨evs, r⟩
  cases r <;> rfl

/-- `liftMsg` produces only `Ok` or anyhow-message errors. -/
theorem liftMsg_snd (x : List (Event S N) × Except String Unit) :
    (liftMsg x).2 = Except.ok () ∨ ∃ s, (liftMsg x).2 = Except.error (RunError.msg s) := by
  rcases x with ⟨evs, r⟩
  cases r with
  | error e => exact Or.inr ⟨e, rfl⟩
  | ok u => cases u; exact Or.inl rfl

/-- Every event of a `seqRun` trace comes from one of the two steps. -/
theorem seqRun_fst_cases (a b : List (Event S N) × Except RunError Unit) :
    ∀ ev ∈ (seqRun a b).1, ev ∈ a.1 ∨ ev ∈ b.1 := by
  intro ev hev
  rcases a with ⟨evs, r⟩
  cases r with
  | ok u =>
    simp only [seqRun, List.mem_append] at hev
    exact hev
  | error e =>
    exact Or.inl hev

/-- The result of a `seqRun` is the result of one of the two steps. -/
theorem seqRun_snd_cases (a b : List (Event S N) × Except RunError Unit) :
    (seqRun a b).2 = a.2 ∨ (seqRun a b).2 = b.2 := by
  rcases a with ⟨evs, r⟩
  cases r with
  | ok u => cases u; exact Or.inr rfl
  | error e => exact Or.inl rfl

/-- Every event of a source stage comes from some `execute_tasks` run. -/
theorem sourceTasksFile_events (env : Env) (pc : ParseCore T S L P)
    (ec : ExecCore S N K) (functions : NadiFunctions) (args : CliArgs) :
    ∀ ev ∈ (sourceTasksFile env pc ec functions args).1,
      ∃ txt, ev ∈ (execute_tasks pc ec functions txt args).1 := by
  intro ev hev
  match ht : args.tasks with
  | none => simp [sourceTasksFile, ht] at hev
  | some p =>
    match hr : env.read_file p with
    | Except.error e => simp [sourceTasksFile, ht, hr] at hev
    | Except.ok txt =>
      simp only [sourceTasksFile, ht, hr, liftMsg_fst] at hev
      exact ⟨txt, hev⟩

/-- Every event of the `--task` stage comes from some `execute_tasks` run. -/
theorem sourceTaskStr_events (pc : ParseCore T S L P)
    (ec : ExecCore S N K) (functions : NadiFunctions) (args : CliArgs) :
    ∀ ev ∈ (sourceTaskStr pc ec functions args).1,
      ∃ txt, ev ∈ (execute_tasks pc ec functions txt args).1 := by
  intro ev hev
  match ht : args.task with
  | none => simp [sourceTaskStr, ht] at hev
  | some txt =>
    simp only [sourceTaskStr, ht, liftMsg_fst] at hev
    exact ⟨txt, hev⟩

/-- Every event of the stdin stage comes from some `execute_tasks` run. -/
theorem sourceStdin_events (env : Env) (pc : ParseCore T S L P)
    (ec : ExecCore S N K) (functions : NadiFunctions) (args : CliArgs) :
    ∀ ev ∈ (sourceStdin env pc ec functions args).1,
      ∃ txt, ev ∈ (execute_tasks pc ec functions txt args).1 := by
  intro ev hev
  match hst : args.stdin with
  | false => simp [sourceStdin, hst] at hev
  | true =>
    match hr : env.stdin with
    | Except.error e => simp [sourceStdin, hst, hr] at hev
    | Except.ok txt =>
      simp only [sourceStdin, hst, if_true, hr, liftMsg_fst] at hev
      exact ⟨txt, hev⟩

/-- Every event of the task-running block of main comes from one of its
`execute_tasks` calls. -/
theorem runSources_events (env : Env) (pc : ParseCore T S L P)
    (ec : ExecCore S N K) (functions : NadiFunctions) (args : CliArgs) :
    ∀ ev ∈ (runSources env pc ec functions args).1,
      ∃ txt, ev ∈ (execute_tasks pc ec functions txt args).1 := by
  intro ev hev
  rcases seqRun_fst_cases _ _ ev hev with h | h
  · exact sourceTasksFile_events env pc ec functions args ev h
  · rcases seqRun_fst_cases _ _ ev h with h2 | h2
    · exact sourceTaskStr_events pc ec functions args ev h2
    · exact sourceStdin_events env pc ec functions args ev h2

/-- The result of each source stage is `Ok` or an anyhow message error. -/
theorem sourceTasksFile_result (env : Env) (pc : ParseCore T S L P)
    (ec : ExecCore S N K) (functions : NadiFunctions) (args : CliArgs) :
    (sourceTasksFile env pc ec functions args).2 = Except.ok () ∨
    ∃ s, (sourceTasksFile env pc ec functions args).2 =
      Except.error (RunError.msg s) := by
  match ht : args.tasks with
  | none => exact Or.inl (by simp [sourceTasksFile, ht])
  | some p =>
    match hr : env.read_file p with
    | Except.error e => exact Or.inr ⟨e, by simp [sourceTasksFile, ht, hr]⟩
    | Except.ok txt =>
      have := liftMsg_snd (execute_tasks pc ec functions txt args)
      simpa [sourceTasksFile, ht, hr] using this

theorem sourceTaskStr_result (pc : ParseCore T S L P)
    (ec : ExecCore S N K) (functions : NadiFunctions) (args : CliArgs) :
    (sourceTaskStr pc ec functions args).2 = Except.ok () ∨
    ∃ s, (sourceTaskStr pc ec functions args).2 = Except.error (RunError.msg s) := by
  match ht : args.task with
  | none => exact Or.inl (by simp [sourceTaskStr, ht])
  | some txt =>
    have := liftMsg_snd (execute_tasks pc ec functions txt args)
    simpa [sourceTaskStr, ht] using this

theorem sourceStdin_result (env : Env) (pc : ParseCore T S L P)
    (ec : ExecCore S N K) (functions : NadiFunctions) (args : CliArgs) :
    (sourceStdin env pc ec functions args).2 = Except.ok () ∨
    ∃ s, (sourceStdin env pc ec functions args).2 =
      Except.error (RunError.msg s) := by
  match hst : args.stdin with
  | false => exact Or.inl (by simp [sourceStdin, hst])
  | true =>
    match hr : env.stdin with
    | Except.error e => exact Or.inr ⟨e, by simp [sourceStdin, hst, hr]⟩
    | Except.ok txt =>
      have := liftMsg_snd (execute_tasks pc ec functions txt args)
      simpa [sourceStdin, hst, hr] using this

/-- The task-running block of main never produces the `args.tasks.unwrap`
panic: its only failures are anyhow message errors. -/
theorem runSources_no_panic (env : Env) (pc : ParseCore T S L P)
    (ec : ExecCore S N K) (functions : NadiFunctions) (args : CliArgs) :
    (runSources env pc ec functions args).2 ≠
      Except.error RunError.panicArgsUnwrap := by
  have hP : ∀ x : List (Event S N) × Except RunError Unit,
      (x.2 = Except.ok () ∨ ∃ s, x.2 = Except.error (RunError.msg s)) →
      x.2 ≠ Except.error RunError.panicArgsUnwrap := by
    intro x h
    rcases h with h | ⟨s, h⟩ <;> simp [h]
  rcases seqRun_snd_cases (sourceTasksFile env pc ec functions args)
      (seqRun (sourceTaskStr pc ec functions args)
        (sourceStdin env pc ec functions args)) with h | h
  · rw [show (runSources env pc ec functions args).2 = _ from h]
    exact hP _ (sourceTasksFile_result env pc ec functions args)
  · rw [show (runSources env pc ec functions args).2 = _ from h]
    rcases seqRun_snd_cases (sourceTaskStr pc ec functions args)
        (sourceStdin env pc ec functions args) with h2 | h2
    · rw [h2]
      exact hP _ (sourceTaskStr_result pc ec functions args)
    · rw [h2]
      exact hP _ (sourceStdin_result env pc ec functions args)

end Lemmas

section Claims

variable {T S N K L P : Type}

/-- Claim C1: for every sequence of parsed task statements, if executing
some statement returns a Diagnostic error, the run stops at that
statement and returns the error to the host: the whole trace of
`execute_tasks` ends with the failing statement's execution, so no
statement after the failing one is executed, and the run's result is
exactly that error. -/
theorem execute_error_aborts_run (pc : ParseCore T S L P)
    (ec : ExecCore S N K) (functions : NadiFunctions) (txt : String)
    (args : CliArgs) (tokens : List T) (pre : List S) (fc : S)
    (post : List S) (net : Option N) (ctx1 ctx2 : K)
    (evs : List (Event S N)) (e : String)
    (htok : pc.get_tokens txt = Except.ok tokens)
    (hparse : pc.parse tokens = Except.ok (pre ++ fc :: post))
    (hnet : (loadNet ec args).2 = Except.ok net)
    (hpre : runPrefix ec.execute (ec.new net) pre = some (ctx1, evs))
    (herr : ec.execute ctx1 fc = (ctx2, Except.error e)) :
    execute_tasks pc ec functions txt args =
      ((if args.print_tasks = true then
          (pre ++ fc :: post).map (fun t => Event.stdoutLine (pc.to_colored_string t))
        else []) ++ (loadNet ec args).1 ++
        Event.stderrLine
          ("** Running " ++ toString (pre ++ fc :: post).length ++ " Script **") ::
        Event.newContext net :: (evs ++ [Event.execStmt fc]),
        Except.error e) := by
  have hloop : execLoop (N := N) ec.execute ctx1 (fc :: post) =
      ([Event.execStmt fc], Except.error e) := by
    rw [execLoop, herr]
  have hdec := runPrefix_execLoop ec.execute (ec.new net) pre (fc :: post) ctx1 evs hpre
  rw [hloop] at hdec
  simp only [execute_tasks, htok, hparse, hnet, hdec]

/-- Closed instance of C1: on the script "abc" (statements 0, 1, 2 where 1
fails with "boom"), the run prints statement 0's output, stops at 1, and
returns "boom"; statement 2 never executes. -/
theorem execute_error_aborts_run_witness :
    execute_tasks wPC wEC wFns "abc" wArgs =
      ([Event.stderrLine "** Running 3 Script **", Event.newContext none,
        Event.execStmt 0, Event.stdoutLine "out0", Event.execStmt 1],
        Except.error "boom") := by
  have h := execute_error_aborts_run wPC wEC wFns "abc" wArgs [0, 1, 2] [0] 1 [2]
    none 1 1 [Event.execStmt 0, Event.stdoutLine "out0"] "boom"
    rfl rfl rfl rfl rfl
  simpa using h

/-- Claim C2: for every script whose token sequence fails to parse,
`execute_tasks` returns the ParseError rendered by `user_msg(None)` as
its error, with an empty trace: zero statements execute, no TaskContext
is created, and the network file is never loaded. -/
theorem parse_error_aborts_before_network (pc : ParseCore T S L P)
    (ec : ExecCore S N K) (functions : NadiFunctions) (txt : String)
    (args : CliArgs) (tokens : List T) (pe : P)
    (htok : pc.get_tokens txt = Except.ok tokens)
    (hparse : pc.parse tokens = Except.error pe) :
    execute_tasks pc ec functions txt args =
      ([], Except.error (pc.parse_user_msg pe none)) := by
  simp [execute_tasks, htok, hparse]

/-- Closed instance of C2: the script "12345" tokenizes to five tokens,
which our concrete parser rejects; the run returns the rendered parse
error and an empty trace. -/
theorem parse_error_aborts_before_network_witness :
    execute_tasks wPC wEC wFns "12345" cArgsBadNet =
      ([], Except.error "parsefail/none") := by
  have h := parse_error_aborts_before_network wPC wEC wFns "12345" cArgsBadNet
    [0, 1, 2, 3, 4] "parsefail" rfl rfl
  simpa using h

/-- Claim C3: for every script that tokenizes and parses successfully, the
`--show` path prints every parsed statement as a function of the parsing
core alone (`show_tasks` takes no registry and no execution core at all),
and the `--print-tasks` path of `execute_tasks` begins its trace with
every parsed statement's rendering, whatever the execution core and
registry are — in particular for one where every function name is
unregistered, since undefined-function detection happens only when
`execute` runs. -/
theorem introspection_independent_of_registry (env : Env)
    (pc : ParseCore T S L P) (filename txt : String)
    (tokens : List T) (tasks : List S) (args : CliArgs)
    (hfile : env.read_file filename = Except.ok txt)
    (htok : pc.get_tokens txt = Except.ok tokens)
    (hparse : pc.parse tokens = Except.ok tasks)
    (hpt : args.print_tasks = true) :
    (show_tasks (N := N) env pc filename =
      (Event.stdoutLine "\n----File Tokens----" ::
        tokens.map (fun t => Event.stdoutLine (pc.colored_print t)) ++
        Event.stdoutLine "\n----Parsed Tasks----" ::
        tasks.map (fun t => Event.stdoutLine (pc.to_colored_string t)),
        Except.ok ())) ∧
    ∀ {N' K' : Type} (ec : ExecCore S N' K') (functions : NadiFunctions),
      ∃ rest, (execute_tasks pc ec functions txt args).1 =
        tasks.map (fun fc =>
          (Event.stdoutLine (pc.to_colored_string fc) : Event S N')) ++ rest := by
  constructor
  · simp [show_tasks, hfile, htok, hparse]
  · intro N' K' ec functions
    match hl : (loadNet ec args).2 with
    | Except.error e =>
      refine ⟨(loadNet ec args).1, ?_⟩
      simp [execute_tasks, htok, hparse, hl, hpt]
    | Except.ok net =>
      refine ⟨(loadNet ec args).1 ++
        Event.stderrLine ("** Running " ++ toString tasks.length ++ " Script **") ::
        Event.newContext net ::
        (execLoop ec.execute (ec.new net) tasks).1, ?_⟩
      simp [execute_tasks, htok, hparse, hl, hpt]

/-- Closed instance of C3: the file "f.txt" holds the script "abc"; its
three statements are all printed by the show path, and the print-tasks
path prints them before anything else. -/
theorem introspection_independent_of_registry_witness :
    (show_tasks (N := Nat) wEnv wPC "f.txt" =
      ([Event.stdoutLine "\n----File Tokens----", Event.stdoutLine "tok0",
        Event.stdoutLine "tok1", Event.stdoutLine "tok2",
        Event.stdoutLine "\n----Parsed Tasks----", Event.stdoutLine "task0",
        Event.stdoutLine "task1", Event.stdoutLine "task2"], Except.ok ())) ∧
    ∃ rest, (execute_tasks wPC wEC wFns "abc" wArgsPT).1 =
      [Event.stdoutLine "task0", Event.stdoutLine "task1",
        Event.stdoutLine "task2"] ++ rest := by
  have h := introspection_independent_of_registry (N := Nat) wEnv wPC "f.txt" "abc"
    [0, 1, 2] [0, 1, 2] wArgsPT rfl rfl rfl rfl
  exact ⟨by simpa using h.1, by simpa using h.2 wEC wFns⟩

/-- Claim C4: for every run with a successfully parsed script and a
successfully loaded (or absent) network, exactly one TaskContext is
created, before the first statement executes and initialized with the
optional network; the statement loop threads that one context, so any
prefix of statements that succeeds hands the context it reached to the
rest of the run. -/
theorem single_context_per_run (pc : ParseCore T S L P)
    (ec : ExecCore S N K) (functions : NadiFunctions) (txt : String)
    (args : CliArgs) (tokens : List T) (tasks : List S) (net : Option N)
    (htok : pc.get_tokens txt = Except.ok tokens)
    (hparse : pc.parse tokens = Except.ok tasks)
    (hnet : (loadNet ec args).2 = Except.ok net) :
    (execute_tasks pc ec functions txt args =
      ((if args.print_tasks = true then
          tasks.map (fun t => Event.stdoutLine (pc.to_colored_string t))
        else []) ++ (loadNet ec args).1 ++
        Event.stderrLine ("** Running " ++ toString tasks.length ++ " Script **") ::
        Event.newContext net :: (execLoop (N := N) ec.execute (ec.new net) tasks).1,
        (execLoop (N := N) ec.execute (ec.new net) tasks).2)) ∧
    (execute_tasks pc ec functions txt args).1.countP isNewContext = 1 ∧
    (∀ v, Event.newContext v ∈ (execute_tasks pc ec functions txt args).1 → v = net) ∧
    (∀ pre rest ctx1 evs, tasks = pre ++ rest →
      runPrefix ec.execute (ec.new net) pre = some (ctx1, evs) →
      execLoop (N := N) ec.execute (ec.new net) tasks =
        (evs ++ (execLoop (N := N) ec.execute ctx1 rest).1,
          (execLoop (N := N) ec.execute ctx1 rest).2)) := by
  have hmain : execute_tasks pc ec functions txt args =
      ((if args.print_tasks = true then
          tasks.map (fun t => Event.stdoutLine (pc.to_colored_string t))
        else []) ++ (loadNet ec args).1 ++
        Event.stderrLine ("** Running " ++ toString tasks.length ++ " Script **") ::
        Event.newContext net :: (execLoop (N := N) ec.execute (ec.new net) tasks).1,
        (execLoop (N := N) ec.execute (ec.new net) tasks).2) := by
    simp only [execute_tasks, htok, hparse, hnet]
  refine ⟨hmain, ?_, ?_, ?_⟩
  · rw [hmain]
    have h1 : (if args.print_tasks = true then
        tasks.map (fun t => Event.stdoutLine (pc.to_colored_string t))
      else ([] : List (Event S N))).countP isNewContext = 0 := by
      rw [List.countP_eq_zero]
      intro ev hev
      rcases mem_print_tasks_stdout pc args tasks ev hev with ⟨s, h⟩
      subst h
      simp [isNewContext]
    have h2 : (loadNet ec args).1.countP isNewContext = 0 := by
      rw [List.countP_eq_zero]
      intro ev hev
      rcases loadNet_events ec args ev hev with ⟨p, h⟩
      subst h
      simp [isNewContext]
    have h3 : (execLoop (N := N) ec.execute (ec.new net) tasks).1.countP
        isNewContext = 0 := by
      rw [List.countP_eq_zero]
      intro ev hev
      rcases execLoop_events ec.execute (ec.new net) tasks ev hev with ⟨fc, h⟩ | ⟨s, h⟩ <;>
        (subst h; simp [isNewContext])
    simp [List.countP_append, List.countP_cons, h1, h2, h3, isNewContext]
  · intro v hv
    have := execute_tasks_newContext pc ec functions txt args _ hv v rfl
    rw [hnet] at this
    injection this with h
    exact h.symm
  · intro pre rest ctx1 evs hsplit hpre
    rw [hsplit]
    exact runPrefix_execLoop ec.execute (ec.new net) pre rest ctx1 evs hpre

/-- Closed instance of C4: running "ab" (statements 0, 2, both succeed)
with the network file "good.net" creates exactly one context, initialized
with network 7, before both statements run. -/
theorem single_context_per_run_witness :
    execute_tasks wPC wEC wFns "ab" cArgsMulti =
      ([Event.loadNetwork "good.net", Event.stderrLine "** Running 2 Script **",
        Event.newContext (some 7), Event.execStmt 0, Event.stdoutLine "out0",
        Event.execStmt 1], Except.error "boom") ∧
    (execute_tasks wPC wEC wFns "ab" cArgsMulti).1.countP isNewContext = 1 := by
  have h := single_context_per_run wPC wEC wFns "ab" cArgsMulti [0, 1] [0, 1]
    (some 7) rfl rfl rfl
  exact ⟨by simpa using h.1, h.2.1⟩

/-- Counterexample to Claim C5 as stated: a script with zero statements
(parse returns the empty sequence) whose run does NOT return success,
because a `--network` file was given and `Network::from_file(net)?` fails
— the network is loaded even when there is no statement to run. -/
theorem empty_script_failure_counterexample :
    wPC.get_tokens "" = Except.ok [] ∧ wPC.parse [] = Except.ok [] ∧
    (execute_tasks wPC wEC wFns "" cArgsBadNet).2 ≠ Except.ok () := by
  refine ⟨rfl, rfl, ?_⟩
  have h : (execute_tasks wPC wEC wFns "" cArgsBadNet).2 = Except.error "badnet" := rfl
  rw [h]
  intro hcon
  exact Except.noConfusion hcon

/-- Claim C5 as amended: for every script with zero statements, parse
returns an empty statement sequence, and the run executes no statement
and prints no stdout line; provided the optional network file is absent
or loads successfully, the run returns success (a failing network load
still aborts the run with its error, as the counterexample shows). -/
theorem empty_script_noop (pc : ParseCore T S L P)
    (ec : ExecCore S N K) (functions : NadiFunctions) (txt : String)
    (args : CliArgs) (tokens : List T) (net : Option N)
    (htok : pc.get_tokens txt = Except.ok tokens)
    (hparse : pc.parse tokens = Except.ok ([] : List S))
    (hnet : (loadNet ec args).2 = Except.ok net) :
    execute_tasks pc ec functions txt args =
      ((loadNet ec args).1 ++
        [Event.stderrLine "** Running 0 Script **", Event.newContext net],
        Except.ok ()) ∧
    ∀ ev ∈ (execute_tasks pc ec functions txt args).1,
      (∀ fc, ev ≠ Event.execStmt fc) ∧ (∀ s, ev ≠ Event.stdoutLine s) := by
  have hmain : execute_tasks pc ec functions txt args =
      ((loadNet ec args).1 ++
        [Event.stderrLine "** Running 0 Script **", Event.newContext net],
        Except.ok ()) := by
    simp only [execute_tasks, htok, hparse, hnet, execLoop, List.map_nil, ite_self,
      List.length_nil, List.nil_append, List.append_nil]
    rfl
  refine ⟨hmain, ?_⟩
  intro ev hev
  rw [hmain] at hev
  simp only [List.mem_append, List.mem_cons, List.not_mem_nil, or_false,
    List.mem_singleton] at hev
  rcases hev with hev | hev | hev
  · rcases loadNet_events ec args ev hev with ⟨p, h⟩
    subst h
    exact ⟨fun fc h => Event.noConfusion h, fun s h => Event.noConfusion h⟩
  · subst hev
    exact ⟨fun fc h => Event.noConfusion h, fun s h => Event.noConfusion h⟩
  · subst hev
    exact ⟨fun fc h => Event.noConfusion h, fun s h => Event.noConfusion h⟩

/-- Closed instance of the amended C5: the empty script with no network
file runs to success with no statement and no stdout line. -/
theorem empty_script_noop_witness :
    execute_tasks wPC wEC wFns "" wArgs =
      ([Event.stderrLine "** Running 0 Script **", Event.newContext none],
        Except.ok ()) := by
  have h := empty_script_noop wPC wEC wFns "" wArgs [] none rfl rfl rfl
  simpa using h.1

/-- Claim C6: for every successfully executed statement, a result of
`Ok(Some(output))` prints the output and a result of `Ok(None)` prints
nothing; in both cases the loop continues with the remaining statements
from the updated context (both are success for that statement). -/
theorem statement_output_printed (execute : K → S → K × Except String (Option String))
    (ctx ctx' : K) (fc : S) (rest : List S) (r : Option String)
    (h : execute ctx fc = (ctx', Except.ok r)) :
    execLoop (N := N) execute ctx (fc :: rest) =
      (Event.execStmt fc ::
        ((match r with
          | some p => [Event.stdoutLine p]
          | none => []) ++ (execLoop (N := N) execute ctx' rest).1),
        (execLoop (N := N) execute ctx' rest).2) := by
  match r with
  | some p =>
    rw [execLoop, h]
    rfl
  | none =>
    rw [execLoop, h]
    rfl

/-- Closed instance of C6: statement 0 outputs "out0" which is printed,
statement 2 outputs nothing, and the loop runs both to success. -/
theorem statement_output_printed_witness :
    execLoop (N := Nat) wEC.execute 0 [0, 2] =
      ([Event.execStmt 0, Event.stdoutLine "out0", Event.execStmt 2],
        Except.ok ()) := by
  have h := statement_output_printed (N := Nat) wEC.execute 0 1 0 [2]
    (some "out0") rfl
  simpa using h

/-- Claim C7: the registry's `help(name)` / `code(name)` return an Option
(nothing, not an error, for an unknown name — so modelled in
`NadiFunctions`), and when the CLI is invoked with `--fnhelp` (resp.
`--fncode`) for a name on which they return `none`, it prints the default
empty string and exits successfully. -/
theorem unknown_name_prints_default (env : Env) (pc : ParseCore T S L P)
    (ec : ExecCore S N K) (functions : NadiFunctions)
    (args1 args2 : CliArgs) (f g : String)
    (h1s : args1.show_flag = false) (h1d : args1.generate_doc = none)
    (h1f : args1.fnhelp = some f) (hhf : functions.help f = none)
    (h2s : args2.show_flag = false) (h2d : args2.generate_doc = none)
    (h2h : args2.fnhelp = none) (h2c : args2.fncode = some g)
    (hcg : functions.code g = none) :
    main env pc ec functions args1 = ([Event.stdoutLine ""], Except.ok ()) ∧
    main env pc ec functions args2 = ([Event.stdoutLine ""], Except.ok ()) := by
  constructor
  · simp [main, h1s, h1d, h1f, hhf]
  · simp [main, h2s, h2d, h2h, h2c, hcg]

/-- Closed instance of C7: `--fnhelp unknownfn` and `--fncode unknownfn`
(a name the concrete registry does not know) print the empty line and
exit Ok. -/
theorem unknown_name_prints_default_witness :
    main wEnv wPC wEC wFns cArgsHelp = ([Event.stdoutLine ""], Except.ok ()) ∧
    main wEnv wPC wEC wFns cArgsCode = ([Event.stdoutLine ""], Except.ok ()) := by
  exact unknown_name_prints_default wEnv wPC wEC wFns cArgsHelp cArgsCode
    "unknownfn" "unknownfn" rfl rfl rfl rfl rfl rfl rfl rfl rfl

/-- Claim C8: in the task-running branch of main (no show/doc/introspection
flag), every TaskContext created — one per supplied source: tasks file,
`--task` string, stdin — is initialized with the network value re-read
from the `--network` file (or absent) by that source's own `execute_tasks`
call, so a network mutated while executing one source is never the
initial network of a later source's context. -/
theorem fresh_context_per_source (env : Env) (pc : ParseCore T S L P)
    (ec : ExecCore S N K) (functions : NadiFunctions) (args : CliArgs)
    (hs : args.show_flag = false) (hd : args.generate_doc = none)
    (hh : args.fnhelp = none) (hc : args.fncode = none)
    (hlf : args.list_functions = false) (hcomp : args.completion = none) :
    ∀ ev ∈ (main env pc ec functions args).1, ∀ v,
      ev = Event.newContext v → (loadNet ec args).2 = Except.ok v := by
  intro ev hev v hv
  have hm : main env pc ec functions args = runSources env pc ec functions args := by
    simp [main, hs, hd, hh, hc, hlf, hcomp]
  rw [hm] at hev
  rcases runSources_events env pc ec functions args ev hev with ⟨txt, h⟩
  exact execute_tasks_newContext pc ec functions txt args ev h v hv

/-- Closed instance of C8: with a tasks file, a `--task` string, stdin and
`--network good.net` all supplied, the context-creation event observed in
the run carries exactly the network re-read from "good.net". -/
theorem fresh_context_per_source_witness :
    (loadNet wEC cArgsMulti).2 = Except.ok (some 7) :=
  fresh_context_per_source wEnv wPC wEC wFns cArgsMulti rfl rfl rfl rfl rfl rfl
    (Event.newContext (some 7)) (by decide) (some 7) rfl

/-- Claim C9: when the `--show` flag is set (with its tasks file), main is
exactly `show_tasks` on that file — it only tokenizes, parses and prints:
every event is a stdout line, so no TaskContext is created, no network is
loaded and no statement executes, whatever `--task`, `--network` or
`--stdin` also say. -/
theorem show_only_prints (env : Env) (pc : ParseCore T S L P)
    (ec : ExecCore S N K) (functions : NadiFunctions) (args : CliArgs)
    (t : String) (hs : args.show_flag = true) (ht : args.tasks = some t) :
    main env pc ec functions args = show_tasks env pc t ∧
    ∀ ev ∈ (main env pc ec functions args).1, ∃ s, ev = Event.stdoutLine s := by
  have hm : main env pc ec functions args = show_tasks env pc t := by
    simp [main, hs, ht]
  refine ⟨hm, ?_⟩
  rw [hm]
  exact show_tasks_events env pc t

/-- Closed instance of C9: `--show` with tasks file "f.txt" while
`--task`, `--network` and `--stdin` are also supplied is exactly
`show_tasks` on "f.txt". -/
theorem show_only_prints_witness :
    main wEnv wPC wEC wFns cArgsShow = show_tasks wEnv wPC "f.txt" :=
  (show_only_prints wEnv wPC wEC wFns cArgsShow "f.txt" rfl rfl).1

/-- Claim C10: under clap's `requires = "tasks"` guarantee (show flag set
implies a tasks path is present), `args.tasks.unwrap()` on the `--show`
branch never panics: no run of main returns the unwrap panic. -/
theorem show_unwrap_safe (env : Env) (pc : ParseCore T S L P)
    (ec : ExecCore S N K) (functions : NadiFunctions) (args : CliArgs)
    (h : ClapValid args) :
    (main env pc ec functions args).2 ≠ Except.error RunError.panicArgsUnwrap := by
  match hs : args.show_flag with
  | true =>
    match ht : args.tasks with
    | some t =>
      have hm : main env pc ec functions args = show_tasks env pc t := by
        simp [main, hs, ht]
      rw [hm]
      exact show_tasks_no_args_panic env pc t
    | none =>
      have := h hs
      rw [ht] at this
      simp at this
  | false =>
    match hd : args.generate_doc with
    | some dir =>
      match hpd : functions.plugins_doc dir with
      | Except.ok u => cases u; simp [main, hs, hd, hpd]
      | Except.error e => simp [main, hs, hd, hpd]
    | none =>
      match hh : args.fnhelp with
      | some f => simp [main, hs, hd, hh]
      | none =>
        match hc : args.fncode with
        | some f => simp [main, hs, hd, hh, hc]
        | none =>
          match hlf : args.list_functions with
          | true => simp [main, hs, hd, hh, hc, hlf]
          | false =>
            match hcomp : args.completion with
            | some FunctionType.Node => simp [main, hs, hd, hh, hc, hlf, hcomp]
            | some FunctionType.Network => simp [main, hs, hd, hh, hc, hlf, hcomp]
            | none =>
              have hm : main env pc ec functions args =
                  runSources env pc ec functions args := by
                simp [main, hs, hd, hh, hc, hlf, hcomp]
              rw [hm]
              exact runSources_no_panic env pc ec functions args

/-- Closed instance of C10: clap-valid `--show` arguments (tasks file
present) never yield the unwrap panic. -/
theorem show_unwrap_safe_witness :
    (main wEnv wPC wEC wFns cArgsShow).2 ≠
      Except.error RunError.panicArgsUnwrap :=
  show_unwrap_safe wEnv wPC wEC wFns cArgsShow (fun _ => rfl)

end Claims

end NadiCli
